import Mathlib

/-!
# Verification of the VersusBank game runtime

Shallow embedding of the parts of the VersusBank browser-game runtime that
the claims refer to:

* `Game.gameLoop` — the fixed-timestep accumulator loop (`part_007`);
* `InputHandler` — virtual joystick and touch-gesture recognition (`part_009`);
* `SceneManager` — scene registry, transitions (`SceneManager.ts`);
* `AssetManager` — asset loading, progress counters (`AssetManager` source).

JavaScript numbers are modelled as exact rationals (`ℚ`) where the code only
adds, subtracts and compares, and as reals (`ℝ`) where the code calls
`Math.sqrt` / `Math.atan2` / `Math.cos` / `Math.sin`.  For the trigonometric
combination used by the joystick clamp we use the identities
`cos (atan2 y x) = x / sqrt (x² + y²)` and
`sin (atan2 y x) = y / sqrt (x² + y²)` (valid for `(x, y) ≠ (0, 0)`, which
holds on the branch where the code evaluates them, since there
`sqrt (dx² + dy²) > radius = 50 > 0`).
-/

namespace VersusBank

/-! ## Game loop (`Game.gameLoop`, src/unnamed/part_007)

```ts
private readonly fixedTimeStep: number = 1000 / 60; // 60 FPS physics
private readonly maxDeltaTime: number = 250; // Prevent spiral of death

private gameLoop(currentTime: number): void {
  if (!this.isRunning) return;
  const deltaTime = Math.min(currentTime - this.lastTime, this.maxDeltaTime);
  this.lastTime = currentTime;
  this.updateFPSCounter(currentTime);
  this.accumulator += deltaTime;
  while (this.accumulator >= this.fixedTimeStep) {
    this.update(this.fixedTimeStep);
    this.accumulator -= this.fixedTimeStep;
  }
  this.render();
  ...
}
```
-/

/-- `Game.fixedTimeStep = 1000 / 60`. -/
def fixedTimeStep : ℚ := 1000 / 60

/-- `Game.maxDeltaTime = 250`. -/
def maxDeltaTime : ℚ := 250

/-- The draining `while` loop of `Game.gameLoop`: while `acc ≥ step`,
subtract `step` (each subtraction corresponds to one `update(fixedTimeStep)`
call).  Returns the final accumulator together with the number of `update`
calls performed.  Termination: each iteration decreases `⌊acc / step⌋`. -/
def drain (step : ℚ) (hstep : 0 < step) (acc : ℚ) : ℚ × ℕ :=
  if h : step ≤ acc then
    let r := drain step hstep (acc - step)
    (r.1, r.2 + 1)
  else
    (acc, 0)
termination_by (⌊acc / step⌋).toNat
decreasing_by
  have h1 : (1 : ℚ) ≤ acc / step := (one_le_div hstep).mpr h
  have h2 : (acc - step) / step = acc / step - 1 := by
    field_simp
  have h3 : ⌊(acc - step) / step⌋ = ⌊acc / step⌋ - 1 := by
    rw [h2, Int.floor_sub_one]
  have h4 : (1 : ℤ) ≤ ⌊acc / step⌋ := by
    exact_mod_cast Int.le_floor.mpr (by exact_mod_cast h1)
  simp only [h3]
  omega

/-- The effective delta time of a frame:
`Math.min(currentTime - this.lastTime, this.maxDeltaTime)`. -/
def effectiveDelta (lastTime currentTime : ℚ) : ℚ :=
  min (currentTime - lastTime) maxDeltaTime

/-- One frame of `Game.gameLoop`, from the delta-time computation through the
end of the draining `while` loop.  Input: previous `lastTime`, the frame's
`currentTime`, and the incoming accumulator.  Output: the accumulator after
draining and the number of `update(fixedTimeStep)` calls this frame ran. -/
def gameLoopFrame (lastTime currentTime acc : ℚ) : ℚ × ℕ :=
  drain fixedTimeStep (by norm_num [fixedTimeStep])
    (acc + effectiveDelta lastTime currentTime)

theorem drain_nonneg_lt (step : ℚ) (hstep : 0 < step) (acc : ℚ)
    (hacc : 0 ≤ acc) : 0 ≤ (drain step hstep acc).1 ∧ (drain step hstep acc).1 < step := by
  induction acc using drain.induct step hstep with
  | case1 acc h ih =>
    rw [drain]
    simp only [h, dite_true]
    exact ih (by linarith)
  | case2 acc h =>
    rw [drain]
    simp only [h, dite_false]
    exact ⟨hacc, lt_of_not_le h⟩

theorem drain_count_le (step : ℚ) (hstep : 0 < step) (acc : ℚ)
    (hacc : 0 ≤ acc) : ((drain step hstep acc).2 : ℚ) * step ≤ acc := by
  induction acc using drain.induct step hstep with
  | case1 acc h ih =>
    rw [drain]
    simp only [h, dite_true]
    have := ih (by linarith)
    push_cast
    push_cast at this
    linarith
  | case2 acc h =>
    rw [drain]
    simp only [h, dite_false]
    simpa using hacc

/-- C2: for every game-loop frame, if the accumulator is nonnegative when the
frame begins, then after the frame's fixed-step draining while-loop completes
the accumulator value lies in the half-open interval `[0, fixedTimeStep)`.
(A frame's raw elapsed wall time `currentTime - lastTime` is nonnegative
because `performance.now()` is monotone.) -/
theorem accumulator_in_range_after_drain (lastTime currentTime acc : ℚ)
    (hacc : 0 ≤ acc) (hmono : lastTime ≤ currentTime) :
    0 ≤ (gameLoopFrame lastTime currentTime acc).1 ∧
      (gameLoopFrame lastTime currentTime acc).1 < fixedTimeStep := by
  have hdt : 0 ≤ effectiveDelta lastTime currentTime := by
    rw [effectiveDelta]
    have h1 : 0 ≤ currentTime - lastTime := by linarith
    have h2 : (0 : ℚ) ≤ maxDeltaTime := by norm_num [maxDeltaTime]
    exact le_min h1 h2
  exact drain_nonneg_lt fixedTimeStep (by norm_num [fixedTimeStep]) _ (by linarith)

/-- Witness for `accumulator_in_range_after_drain` at `lastTime = 0`,
`currentTime = 100`, `acc = 5`. -/
theorem accumulator_in_range_after_drain_witness :
    (0 : ℚ) ≤ 5 ∧ (0 : ℚ) ≤ 100 ∧
      (0 ≤ (gameLoopFrame 0 100 5).1 ∧ (gameLoopFrame 0 100 5).1 < fixedTimeStep) :=
  ⟨by norm_num, by norm_num,
    accumulator_in_range_after_drain 0 100 5 (by norm_num) (by norm_num)⟩

/-- C3: for every game-loop frame whose raw elapsed wall time exceeds
`maxDeltaTime = 250`, the effective delta time added to the accumulator equals
`250`; consequently, for any incoming accumulator value in
`[0, fixedTimeStep)`, at most `16` fixed-timestep `update()` calls run in the
frame. -/
theorem clamped_delta_bounds_updates (lastTime currentTime acc : ℚ)
    (hraw : maxDeltaTime < currentTime - lastTime)
    (hacc0 : 0 ≤ acc) (hacc1 : acc < fixedTimeStep) :
    effectiveDelta lastTime currentTime = 250 ∧
      (gameLoopFrame lastTime currentTime acc).2 ≤ 16 := by
  have hdt : effectiveDelta lastTime currentTime = 250 := by
    rw [effectiveDelta, min_eq_right (le_of_lt hraw)]
    norm_num [maxDeltaTime]
  have key : ∀ a : ℚ, 0 ≤ a → a < fixedTimeStep + 250 →
      (drain fixedTimeStep (by norm_num [fixedTimeStep]) a).2 ≤ 16 := by
    intro a ha0 ha1
    have hcount := drain_count_le fixedTimeStep (by norm_num [fixedTimeStep]) a ha0
    by_contra hgt
    push_neg at hgt
    have h17 : (17 : ℚ) ≤
        ((drain fixedTimeStep (by norm_num [fixedTimeStep]) a).2 : ℚ) := by
      exact_mod_cast hgt
    have hmul : (17 : ℚ) * fixedTimeStep ≤
        ((drain fixedTimeStep (by norm_num [fixedTimeStep]) a).2 : ℚ) * fixedTimeStep :=
      mul_le_mul_of_nonneg_right h17 (by norm_num [fixedTimeStep])
    have hstep : fixedTimeStep = 50 / 3 := by norm_num [fixedTimeStep]
    linarith [hmul, hcount, ha1, hstep]
  constructor
  · exact hdt
  · simp only [gameLoopFrame]
    rw [hdt]
    exact key (acc + 250) (by linarith) (by linarith)

/-- Witness for `clamped_delta_bounds_updates` at `lastTime = 0`,
`currentTime = 300`, `acc = 5`. -/
theorem clamped_delta_bounds_updates_witness :
    maxDeltaTime < (300 : ℚ) - 0 ∧ (0 : ℚ) ≤ 5 ∧ (5 : ℚ) < fixedTimeStep ∧
      (effectiveDelta 0 300 = 250 ∧ (gameLoopFrame 0 300 5).2 ≤ 16) :=
  ⟨by norm_num [maxDeltaTime], by norm_num, by norm_num [fixedTimeStep],
    clamped_delta_bounds_updates 0 300 5 (by norm_num [maxDeltaTime])
      (by norm_num) (by norm_num [fixedTimeStep])⟩

/-! ## InputHandler (src/unnamed/part_009)

Touch state, the virtual joystick, and gesture classification.  Coordinates
are reals (the code computes with `Math.sqrt`, `Math.atan2`, `Math.cos`,
`Math.sin`).  On the clamping branch of `updateVirtualJoystick` the code sets
`x += Math.cos(Math.atan2(dy, dx)) * maxDistance` (and the `sin` analogue);
there `distance = sqrt (dx² + dy²) > 50 > 0`, so `(dx, dy) ≠ (0, 0)` and the
identities `cos (atan2 dy dx) = dx / distance`, `sin (atan2 dy dx) = dy /
distance` apply; the embedding uses those closed forms directly. -/

/-- `TouchInfo` record of the input handler. -/
structure TouchInfo where
  id : ℤ
  x : ℝ
  y : ℝ
  startX : ℝ
  startY : ℝ
  startTime : ℝ

/-- `VirtualJoystick` record; `touchId : number | null` becomes `Option ℤ`. -/
structure VirtualJoystick where
  x : ℝ
  y : ℝ
  radius : ℝ
  active : Bool
  touchId : Option ℤ

/-- The touch-related state of `InputHandler` (keyboard and mouse state play
no role in the claims).  `canvas.width` is fixed to the game's internal
resolution 320 by `Game.setupCanvas`, but is kept as a field. -/
structure InputHandlerState where
  touches : List TouchInfo
  virtualJoystick : VirtualJoystick
  canvasWidth : ℝ

/-- JavaScript truthiness of the guard `!this.virtualJoystick.touchId`:
`null` and `0` are falsy, every other number is truthy. -/
def jsIdFalsy : Option ℤ → Bool
  | Option.none => true
  | Option.some i => i == 0

/-- `InputHandler.activateVirtualJoystick(x, y, touchId)`. -/
def activateVirtualJoystick (x y : ℝ) (touchId : ℤ) : VirtualJoystick :=
  { x := x, y := y, radius := 50, active := true, touchId := some touchId }

/-- `InputHandler.updateVirtualJoystick(x, y)`.  Note that `dx`, `dy` are
measured from the joystick's *current* position `(virtualJoystick.x,
virtualJoystick.y)`, not from the tracking touch's start position. -/
noncomputable def updateVirtualJoystick (j : VirtualJoystick) (x y : ℝ) :
    VirtualJoystick :=
  if j.active = false then j
  else
    let dx := x - j.x
    let dy := y - j.y
    let distance := Real.sqrt (dx * dx + dy * dy)
    let maxDistance := j.radius
    if distance ≤ maxDistance then
      { j with x := x, y := y }
    else
      { j with x := j.x + dx / distance * maxDistance,
               y := j.y + dy / distance * maxDistance }

/-- `InputHandler.deactivateVirtualJoystick()`. -/
def deactivateVirtualJoystick (j : VirtualJoystick) : VirtualJoystick :=
  { j with active := false, touchId := Option.none }

/-- The body of `handleTouchStart` for one changed touch: push a fresh
`TouchInfo`, and activate the joystick when the touch lands in the left half
of the canvas. -/
noncomputable def handleTouchStart (s : InputHandlerState) (id : ℤ) (cx cy t : ℝ) :
    InputHandlerState :=
  let touchInfo : TouchInfo :=
    { id := id, x := cx, y := cy, startX := cx, startY := cy, startTime := t }
  let s1 := { s with touches := s.touches ++ [touchInfo] }
  if cx < s1.canvasWidth / 2 then
    { s1 with virtualJoystick := activateVirtualJoystick cx cy id }
  else
    s1

/-- In-place mutation of the first `TouchInfo` whose `id` matches
(`this.state.touches.find(t => t.id === touch.identifier)` followed by
assignment of `x` and `y`). -/
def updateTouchXY (ts : List TouchInfo) (id : ℤ) (cx cy : ℝ) : List TouchInfo :=
  match ts with
  | [] => []
  | t :: rest =>
      if t.id = id then { t with x := cx, y := cy } :: rest
      else t :: updateTouchXY rest id cx cy

/-- The body of `handleTouchMove` for one changed touch: update the stored
touch's position and, if the joystick is active and bound to this touch,
run `updateVirtualJoystick` at the new position. -/
noncomputable def handleTouchMove (s : InputHandlerState) (id : ℤ) (cx cy : ℝ) :
    InputHandlerState :=
  match s.touches.find? (fun t => t.id == id) with
  | Option.none => s
  | Option.some _ =>
      let s1 := { s with touches := updateTouchXY s.touches id cx cy }
      if s1.virtualJoystick.active && (s1.virtualJoystick.touchId == some id) then
        { s1 with virtualJoystick := updateVirtualJoystick s1.virtualJoystick cx cy }
      else
        s1

/-- A touch-start or touch-move event, the alphabet of claim C1. -/
inductive TouchEvent
  | start (id : ℤ) (x y t : ℝ)
  | move (id : ℤ) (x y : ℝ)

/-- Dispatch one event to its handler. -/
noncomputable def stepEvent (s : InputHandlerState) : TouchEvent → InputHandlerState
  | TouchEvent.start id x y t => handleTouchStart s id x y t
  | TouchEvent.move id x y => handleTouchMove s id x y

/-- Run a sequence of touch events. -/
noncomputable def runEvents (s : InputHandlerState) (es : List TouchEvent) :
    InputHandlerState :=
  es.foldl stepEvent s

/-- The state of a freshly constructed `InputHandler` (canvas width 320,
the game's internal resolution). -/
def initialInputState : InputHandlerState :=
  { touches := [],
    virtualJoystick :=
      { x := 0, y := 0, radius := 50, active := false, touchId := Option.none },
    canvasWidth := 320 }

/-- Result shape of `InputHandler.getVirtualJoystick()`. -/
structure JoystickOutput where
  x : ℝ
  y : ℝ
  active : Bool

/-- `InputHandler.getVirtualJoystick()`.  The guard
`!this.virtualJoystick.active || !this.virtualJoystick.touchId` uses
JavaScript truthiness on `touchId`. -/
noncomputable def getVirtualJoystick (s : InputHandlerState) : JoystickOutput :=
  if !s.virtualJoystick.active || jsIdFalsy s.virtualJoystick.touchId then
    { x := 0, y := 0, active := false }
  else
    match s.touches.find? (fun t => some t.id == s.virtualJoystick.touchId) with
    | Option.none => { x := 0, y := 0, active := false }
    | Option.some startTouch =>
        let dx := s.virtualJoystick.x - startTouch.startX
        let dy := s.virtualJoystick.y - startTouch.startY
        let distance := Real.sqrt (dx * dx + dy * dy)
        let maxDistance := s.virtualJoystick.radius
        { x := if distance ≤ maxDistance then dx / maxDistance else dx / distance,
          y := if distance ≤ maxDistance then dy / maxDistance else dy / distance,
          active := true }

/-- `InputHandler.SWIPE_THRESHOLD = 30`. -/
def swipeThreshold : ℝ := 30

/-- `InputHandler.TAP_TIMEOUT = 300`. -/
def tapTimeout : ℝ := 300

/-- `InputHandler.getSwipeDirection(deltaX, deltaY)`:
`absX > absY` picks the horizontal axis, otherwise the vertical one. -/
noncomputable def getSwipeDirection (deltaX deltaY : ℝ) : String :=
  let absX := |deltaX|
  let absY := |deltaY|
  if absY < absX then
    if 0 < deltaX then "right" else "left"
  else
    if 0 < deltaY then "down" else "up"

/-- A recognized touch-end gesture. -/
inductive Gesture
  | tap
  | swipe (direction : String) (deltaX deltaY : ℝ)

/-- `InputHandler.completeGestureRecognition(touchInfo)` run at time `now`
(`Date.now()` at touch-end): classify into tap, swipe, or nothing. -/
noncomputable def completeGestureRecognition (now : ℝ) (touchInfo : TouchInfo) :
    Option Gesture :=
  let touchDuration := now - touchInfo.startTime
  let deltaX := touchInfo.x - touchInfo.startX
  let deltaY := touchInfo.y - touchInfo.startY
  let distance := Real.sqrt (deltaX * deltaX + deltaY * deltaY)
  if touchDuration ≤ tapTimeout ∧ distance < 10 then
    some Gesture.tap
  else if swipeThreshold < distance then
    some (Gesture.swipe (getSwipeDirection deltaX deltaY) deltaX deltaY)
  else
    Option.none

/-! ## SceneManager (src/src/ts/SceneManager.ts)

Scenes are opaque objects compared by reference (`===`); they are modelled by
numeric identities.  The `scenes` `Map` is an association list keyed by name,
`initializedScenes` a list of names.  Calls to `scene.destroy()` are recorded
in the instrumentation field `destroyedScenes`. -/

/-- `TransitionType` enumeration. -/
inductive TransitionType
  | noTransition
  | fade
  | slideLeft
  | slideRight
  | slideUp
  | slideDown
deriving DecidableEq

/-- Identity of a `Scene` object (reference equality). -/
abbrev SceneId := ℕ

/-- The fields of `SceneManager`, plus the `destroyedScenes` log of
`scene.destroy()` calls. -/
structure SceneManagerState where
  scenes : List (String × SceneId)
  initializedScenes : List String
  currentScene : Option SceneId
  previousScene : Option SceneId
  transitionFromScene : Option SceneId
  transitionToScene : Option SceneId
  transitionActive : Bool
  transitionProgress : ℚ
  transitionType : TransitionType
  transitionDuration : ℚ
  destroyedScenes : List SceneId
deriving DecidableEq

/-- `this.scenes.get(name)` on the association-list model of the `Map`. -/
def lookupScene (m : List (String × SceneId)) (name : String) : Option SceneId :=
  (m.find? (fun p => p.1 == name)).map Prod.snd

/-- How a `switchTo` call returned. -/
inductive SwitchOutcome
  | threw (msg : String)
  | noop
  | started
deriving DecidableEq

/-- The synchronous behaviour of `SceneManager.switchTo(sceneName,
transitionType)` up to the `performTransition` call: the not-found throw, the
two early no-op returns, and — on the path that proceeds — setting the
transition bookkeeping and lazily recording the scene as initialized (the
`await newScene.init()` suspension does not touch `SceneManager` fields).
The started transition then advances via `transitionTick`. -/
def switchTo (s : SceneManagerState) (sceneName : String)
    (transitionType : TransitionType) : SwitchOutcome × SceneManagerState :=
  match lookupScene s.scenes sceneName with
  | Option.none => (SwitchOutcome.threw ("Scene not found: " ++ sceneName), s)
  | Option.some newScene =>
      if s.transitionActive then
        (SwitchOutcome.noop, s)
      else if s.currentScene == some newScene then
        (SwitchOutcome.noop, s)
      else
        let s1 := { s with transitionActive := true,
                           transitionType := transitionType,
                           transitionProgress := 0 }
        let s2 :=
          if sceneName ∈ s1.initializedScenes then s1
          else { s1 with initializedScenes := s1.initializedScenes ++ [sceneName] }
        (SwitchOutcome.started,
          { s2 with transitionFromScene := s2.currentScene,
                    transitionToScene := some newScene })

/-- `SceneManager.completeTransition(fromScene, toScene)`. -/
def completeTransition (s : SceneManagerState) (fromScene : Option SceneId)
    (toScene : SceneId) : SceneManagerState :=
  let s1 :=
    match fromScene with
    | Option.some f => { s with destroyedScenes := s.destroyedScenes ++ [f] }
    | Option.none => s
  { s1 with previousScene := Option.none,
            currentScene := some toScene,
            transitionActive := false,
            transitionProgress := 0,
            transitionFromScene := Option.none,
            transitionToScene := Option.none }

/-- One animation-frame step of the `updateTransition` closure inside
`SceneManager.performTransition`: set `transitionProgress` to
`min (elapsed / transitionDuration) 1` and, when it reaches `1`, run
`completeTransition` on the captured `fromScene` / `toScene` (which equal the
`transitionFromScene` / `transitionToScene` fields set by `switchTo`). -/
def transitionTick (s : SceneManagerState) (fromScene : Option SceneId)
    (toScene : SceneId) (elapsed : ℚ) : SceneManagerState :=
  let progress := min (elapsed / s.transitionDuration) 1
  let s1 := { s with transitionProgress := progress }
  if 1 ≤ progress then completeTransition s1 fromScene toScene else s1

/-- `SceneManager.removeScene(name)`.  Result: the thrown error message (if
any) together with the state when the call exits. -/
def removeScene (s : SceneManagerState) (name : String) :
    Option String × SceneManagerState :=
  match lookupScene s.scenes name with
  | Option.none => (Option.none, s)
  | Option.some scene =>
      if s.currentScene == some scene then
        (some ("Cannot remove active scene: " ++ name), s)
      else
        (Option.none,
          { s with destroyedScenes := s.destroyedScenes ++ [scene],
                   scenes := s.scenes.eraseP (fun p => p.1 == name),
                   initializedScenes :=
                     s.initializedScenes.eraseP (fun n => n == name) })

/-! ## AssetManager (AssetManager source, bundled after src/src/vite-env.d.ts)

The `assets` and `loadPromises` `Map`s are modelled as insertion-ordered
association lists (`Map.set` replaces in place or appends; `Map.delete`
removes).  Asset payloads (`data`) are opaque handles (`ℕ`).  `loadAsset` is
`async`: its synchronous prefix (`loadAssetBegin`, everything before `await
loadPromise`) and its continuation (`loadAssetComplete`, the
`try`/`catch`/`finally` after the `await`, parameterised by the load's
outcome) are modelled separately so that interleavings of concurrent calls
can be expressed.  The `loadStarts` field is instrumentation: it logs each
invocation of `this.loadAssetData(request)`, i.e. each underlying load that
actually begins. -/

/-- `AssetType` enumeration. -/
inductive AssetType
  | image
  | audio
  | json
  | spritesheet
  | font
deriving DecidableEq

/-- The `Asset` record. -/
structure Asset where
  id : String
  type : AssetType
  path : String
  loaded : Bool
  data : Option ℕ
  error : Option String
deriving DecidableEq

/-- The `AssetRequest` record (the `options` field plays no role here). -/
structure AssetRequest where
  id : String
  type : AssetType
  path : String
deriving DecidableEq

/-- `AssetManager` fields plus the `loadStarts` instrumentation log. -/
structure AssetManagerState where
  assets : List (String × Asset)
  totalAssets : ℕ
  loadedAssets : ℕ
  failedAssets : ℕ
  loadPromises : List String
  loadStarts : List String
deriving DecidableEq

/-- `Map.get` on the association-list model (keys are unique). -/
def mapGet (m : List (String × Asset)) (k : String) : Option Asset :=
  match m with
  | [] => Option.none
  | p :: rest => if p.1 = k then some p.2 else mapGet rest k

/-- `Map.set` on the association-list model: replace the entry in place if
the key is present, else append. -/
def mapSet (m : List (String × Asset)) (k : String) (v : Asset) :
    List (String × Asset) :=
  match m with
  | [] => [(k, v)]
  | p :: rest => if p.1 = k then (k, v) :: rest else p :: mapSet rest k v

/-- Mutation of the asset object stored under key `k` (the JS code mutates
the record in place through the `asset` reference). -/
def mapUpdate (m : List (String × Asset)) (k : String) (f : Asset → Asset) :
    List (String × Asset) :=
  match m with
  | [] => []
  | p :: rest => if p.1 = k then (p.1, f p.2) :: rest else p :: mapUpdate rest k f

/-- The synchronous prefix of `AssetManager.loadAsset(request)`: the
loaded-cache early return; otherwise create the pending record, store it in
`assets`, invoke `loadAssetData` (logged in `loadStarts`), and store the
in-flight promise in `loadPromises`.  The returned flag is `true` exactly
when the cached early return fired (no load started). -/
def loadAssetBegin (s : AssetManagerState) (request : AssetRequest) :
    AssetManagerState × Bool :=
  let cached :=
    match mapGet s.assets request.id with
    | Option.some asset => asset.loaded
    | Option.none => false
  if cached then
    (s, true)
  else
    let asset : Asset :=
      { id := request.id, type := request.type, path := request.path,
        loaded := false, data := Option.none, error := Option.none }
    let s1 := { s with assets := mapSet s.assets request.id asset }
    ({ s1 with
        loadStarts := s1.loadStarts ++ [request.id],
        loadPromises :=
          if request.id ∈ s1.loadPromises then s1.loadPromises
          else s1.loadPromises ++ [request.id] },
      false)

/-- The continuation of `AssetManager.loadAsset(request)` after `await
loadPromise`, with the load's outcome: `some d` resolves with payload `d`
(sets `data`, `loaded := true`, increments `loadedAssets`, returns the
asset), `Option.none` rejects (sets `error`, increments `failedAssets`,
rethrows — returned here as `Option.none`).  The `finally` clause deletes the
in-flight promise.  The mutation targets the map entry for `request.id`,
which is the record this call created (faithful as long as no concurrent call
overwrote the entry in between). -/
def loadAssetComplete (s : AssetManagerState) (request : AssetRequest)
    (outcome : Option ℕ) : AssetManagerState × Option Asset :=
  match outcome with
  | Option.some d =>
      let m1 := mapUpdate s.assets request.id
        (fun a => { a with data := some d, loaded := true })
      ({ s with assets := m1,
                loadedAssets := s.loadedAssets + 1,
                loadPromises := s.loadPromises.erase request.id },
        mapGet m1 request.id)
  | Option.none =>
      let m1 := mapUpdate s.assets request.id
        (fun a => { a with error := some ("Failed to load: " ++ request.path) })
      ({ s with assets := m1,
                failedAssets := s.failedAssets + 1,
                loadPromises := s.loadPromises.erase request.id },
        Option.none)

/-- A whole `loadAsset` call whose underlying load (if one starts) settles
with `outcome`, with no other calls interleaved.  The result is the resolved
asset, or `Option.none` for a rejection (as observed through the
`.catch(() => null)` wrapper in `loadAssets`). -/
def loadAsset (s : AssetManagerState) (request : AssetRequest)
    (outcome : Option ℕ) : AssetManagerState × Option Asset :=
  let r := loadAssetBegin s request
  if r.2 then (r.1, mapGet r.1.assets request.id)
  else loadAssetComplete r.1 request outcome

/-- `AssetManager.loadAssets(requests)`: reset the counters, fan out the
individual loads (`Promise.all` over `loadAsset(...).catch(() => null)`), and
return the non-null results.  Each request carries its load's outcome.  The
fan-out is modelled sequentially; for requests with pairwise-distinct ids
this is state-equivalent to any interleaving, since distinct ids touch
distinct map entries and the counters are only incremented. -/
def loadAssets (s : AssetManagerState)
    (requests : List (AssetRequest × Option ℕ)) :
    AssetManagerState × List Asset :=
  let s0 := { s with totalAssets := requests.length,
                     loadedAssets := 0, failedAssets := 0 }
  let r := requests.foldl
    (fun (acc : AssetManagerState × List (Option Asset)) rq =>
      let step := loadAsset acc.1 rq.1 rq.2
      (step.1, acc.2 ++ [step.2]))
    (s0, [])
  (r.1, r.2.reduceOption)

/-- The `LoadProgress` record. -/
structure LoadProgress where
  total : ℕ
  loaded : ℕ
  failed : ℕ
  percentage : ℚ
deriving DecidableEq

/-- `AssetManager.getProgress()`. -/
def getProgress (s : AssetManagerState) : LoadProgress :=
  let total : ℚ := max (s.totalAssets : ℚ) 1
  let processed : ℚ := (s.loadedAssets : ℚ) + (s.failedAssets : ℚ)
  let percentage : ℚ := processed / total * 100
  { total := s.totalAssets, loaded := s.loadedAssets,
    failed := s.failedAssets, percentage := min percentage 100 }

/-- A freshly constructed `AssetManager`. -/
def freshAssetManager : AssetManagerState :=
  { assets := [], totalAssets := 0, loadedAssets := 0, failedAssets := 0,
    loadPromises := [], loadStarts := [] }

/-! ## Claims C1, C9, C10, C6: virtual joystick and gestures -/

/-- C1 (counterexample): after touch-start at `(0, 0)` (which anchors the
joystick there) and two touch-moves of the same touch to `(100, 0)` and
`(200, 0)`, the joystick sits at `(100, 0)` while the tracking touch's start
position is `(0, 0)`: the straight-line distance between the joystick and the
anchor is `100 > 50`.  Each move clamps relative to the joystick's *current*
position, so the joystick walks toward the touch without bound. -/
def cexEvents : List TouchEvent :=
  [TouchEvent.start 1 0 0 0, TouchEvent.move 1 100 0, TouchEvent.move 1 200 0]

theorem sqrt_hundred : Real.sqrt ((100 - 0) * (100 - 0) + (0 - 0) * (0 - 0)) = 100 := by
  rw [show ((100 - 0) * (100 - 0) + (0 - 0) * (0 - 0) : ℝ) = 100 ^ 2 by norm_num,
    Real.sqrt_sq (by norm_num : (0 : ℝ) ≤ 100)]

theorem sqrt_onefifty : Real.sqrt ((200 - 50) * (200 - 50) + (0 - 0) * (0 - 0)) = 150 := by
  rw [show ((200 - 50) * (200 - 50) + (0 - 0) * (0 - 0) : ℝ) = 150 ^ 2 by norm_num,
    Real.sqrt_sq (by norm_num : (0 : ℝ) ≤ 150)]

theorem cex_step1 : stepEvent initialInputState (TouchEvent.start 1 0 0 0) =
    { touches := [{ id := 1, x := 0, y := 0, startX := 0, startY := 0, startTime := 0 }],
      virtualJoystick := { x := 0, y := 0, radius := 50, active := true, touchId := some 1 },
      canvasWidth := 320 } := by
  simp only [stepEvent, handleTouchStart, activateVirtualJoystick, initialInputState]
  rw [if_pos (show (0 : ℝ) < 320 / 2 by norm_num)]
  simp

theorem cex_step2 : stepEvent
    { touches := [{ id := 1, x := 0, y := 0, startX := 0, startY := 0, startTime := 0 }],
      virtualJoystick := { x := 0, y := 0, radius := 50, active := true, touchId := some 1 },
      canvasWidth := 320 } (TouchEvent.move 1 100 0) =
    { touches := [{ id := 1, x := 100, y := 0, startX := 0, startY := 0, startTime := 0 }],
      virtualJoystick := { x := 50, y := 0, radius := 50, active := true, touchId := some 1 },
      canvasWidth := 320 } := by
  simp only [stepEvent, handleTouchMove, updateTouchXY, updateVirtualJoystick,
    List.find?, sqrt_hundred]
  norm_num

theorem cex_step3 : stepEvent
    { touches := [{ id := 1, x := 100, y := 0, startX := 0, startY := 0, startTime := 0 }],
      virtualJoystick := { x := 50, y := 0, radius := 50, active := true, touchId := some 1 },
      canvasWidth := 320 } (TouchEvent.move 1 200 0) =
    { touches := [{ id := 1, x := 200, y := 0, startX := 0, startY := 0, startTime := 0 }],
      virtualJoystick := { x := 100, y := 0, radius := 50, active := true, touchId := some 1 },
      canvasWidth := 320 } := by
  simp only [stepEvent, handleTouchMove, updateTouchXY, updateVirtualJoystick,
    List.find?, sqrt_onefifty]
  norm_num

/-- C1 is false on the code: a concrete touch-start/touch-move sequence after
which the joystick is active, bound to touch `1`, whose tracked `TouchInfo`
has start position `(0, 0)`, while the joystick position is `(100, 0)` — at
straight-line distance `> 50` from the anchor. -/
theorem joystick_leaves_anchor_counterexample :
    (runEvents initialInputState cexEvents).virtualJoystick.active = true ∧
    (runEvents initialInputState cexEvents).virtualJoystick.touchId = some 1 ∧
    (runEvents initialInputState cexEvents).touches =
      [{ id := 1, x := 200, y := 0, startX := 0, startY := 0, startTime := 0 }] ∧
    (runEvents initialInputState cexEvents).virtualJoystick.radius = 50 ∧
    50 < Real.sqrt
      (((runEvents initialInputState cexEvents).virtualJoystick.x - 0) *
          ((runEvents initialInputState cexEvents).virtualJoystick.x - 0) +
        ((runEvents initialInputState cexEvents).virtualJoystick.y - 0) *
          ((runEvents initialInputState cexEvents).virtualJoystick.y - 0)) := by
  have hrun : runEvents initialInputState cexEvents =
      { touches := [{ id := 1, x := 200, y := 0, startX := 0, startY := 0, startTime := 0 }],
        virtualJoystick := { x := 100, y := 0, radius := 50, active := true, touchId := some 1 },
        canvasWidth := 320 } := by
    show stepEvent (stepEvent (stepEvent initialInputState (TouchEvent.start 1 0 0 0))
      (TouchEvent.move 1 100 0)) (TouchEvent.move 1 200 0) = _
    rw [cex_step1, cex_step2, cex_step3]
  rw [hrun]
  refine ⟨rfl, rfl, rfl, rfl, ?_⟩
  rw [show ((100 - 0) * (100 - 0) + (0 - 0) * (0 - 0) : ℝ) = 100 ^ 2 by norm_num,
    Real.sqrt_sq (by norm_num : (0 : ℝ) ≤ 100)]
  norm_num

/-- C1 (amended): a single `updateVirtualJoystick` call moves the joystick a
straight-line distance of at most the configured radius `50` from its position
immediately before the call — the clamp is relative to the joystick's current
position, not to the tracking touch's start position. -/
theorem updateVirtualJoystick_step_within_radius (j : VirtualJoystick) (x y : ℝ)
    (hr : j.radius = 50) :
    Real.sqrt
      (((updateVirtualJoystick j x y).x - j.x) * ((updateVirtualJoystick j x y).x - j.x) +
        ((updateVirtualJoystick j x y).y - j.y) * ((updateVirtualJoystick j x y).y - j.y))
      ≤ 50 := by
  simp only [updateVirtualJoystick]
  split_ifs with hact hle
  · simp only [sub_self, mul_zero, zero_mul, add_zero, zero_add, mul_self_nonneg]
    rw [Real.sqrt_zero]
    norm_num
  · rw [hr] at hle
    simpa using hle
  · rw [hr] at hle
    push_neg at hle
    set D := Real.sqrt ((x - j.x) * (x - j.x) + (y - j.y) * (y - j.y)) with hD
    have hD0 : (0 : ℝ) < D := lt_trans (by norm_num) hle
    have hDsq : D * D = (x - j.x) * (x - j.x) + (y - j.y) * (y - j.y) := by
      rw [hD]
      exact Real.mul_self_sqrt
        (add_nonneg (mul_self_nonneg _) (mul_self_nonneg _))
    have hinner :
        (j.x + (x - j.x) / D * j.radius - j.x) * (j.x + (x - j.x) / D * j.radius - j.x) +
          (j.y + (y - j.y) / D * j.radius - j.y) * (j.y + (y - j.y) / D * j.radius - j.y)
        = 50 ^ 2 := by
      rw [hr]
      field_simp
      nlinarith [hDsq]
    rw [hinner, Real.sqrt_sq (by norm_num : (0 : ℝ) ≤ 50)]

/-- Witness for `updateVirtualJoystick_step_within_radius` at the joystick
`(0, 0)` with radius `50`, moved toward `(100, 0)`. -/
theorem updateVirtualJoystick_step_within_radius_witness :
    (({ x := 0, y := 0, radius := 50, active := true, touchId := some 1 } :
        VirtualJoystick)).radius = 50 ∧
    Real.sqrt
      (((updateVirtualJoystick
            { x := 0, y := 0, radius := 50, active := true, touchId := some 1 } 100 0).x - 0) *
          ((updateVirtualJoystick
            { x := 0, y := 0, radius := 50, active := true, touchId := some 1 } 100 0).x - 0) +
        ((updateVirtualJoystick
            { x := 0, y := 0, radius := 50, active := true, touchId := some 1 } 100 0).y - 0) *
          ((updateVirtualJoystick
            { x := 0, y := 0, radius := 50, active := true, touchId := some 1 } 100 0).y - 0))
      ≤ 50 :=
  ⟨rfl, updateVirtualJoystick_step_within_radius
    { x := 0, y := 0, radius := 50, active := true, touchId := some 1 } 100 0 rfl⟩

/-- C9: whenever `getVirtualJoystick()` returns `active: true`, the returned
`(x, y)` vector has Euclidean magnitude at most `1`: within the radius the
offset is divided by the radius, otherwise by its own length.  (`radius` is
`50` in every state the code constructs.) -/
theorem joystick_output_magnitude_le_one (s : InputHandlerState)
    (hr : s.virtualJoystick.radius = 50)
    (hact : (getVirtualJoystick s).active = true) :
    (getVirtualJoystick s).x ^ 2 + (getVirtualJoystick s).y ^ 2 ≤ 1 := by
  simp only [getVirtualJoystick] at hact ⊢
  split at hact
  next hguard => exact absurd hact (by simp)
  next hguard =>
    rw [if_neg hguard]
    split at hact
    next hfind => exact absurd hact (by simp)
    next t hfind =>
      clear hact hfind
      dsimp only
      set dx := s.virtualJoystick.x - t.startX with hdx
      set dy := s.virtualJoystick.y - t.startY with hdy
      by_cases hd : Real.sqrt (dx * dx + dy * dy) ≤ s.virtualJoystick.radius
      · simp only [if_pos hd]
        rw [hr] at hd
        have h1 : dx * dx + dy * dy ≤ 2500 := by
          have := (Real.sqrt_le_left (by norm_num : (0:ℝ) ≤ 50)).mp hd
          nlinarith [this]
        rw [hr]
        have h50 : ((50 : ℝ)) ^ 2 = 2500 := by norm_num
        rw [div_pow, div_pow, h50, div_add_div_same, div_le_one (by norm_num : (0:ℝ) < 2500)]
        nlinarith [h1]
      · simp only [if_neg hd]
        rw [hr] at hd
        push_neg at hd
        have hD0 : (0 : ℝ) < Real.sqrt (dx * dx + dy * dy) := lt_trans (by norm_num) hd
        have hDD : Real.sqrt (dx * dx + dy * dy) * Real.sqrt (dx * dx + dy * dy) =
            dx * dx + dy * dy :=
          Real.mul_self_sqrt (add_nonneg (mul_self_nonneg _) (mul_self_nonneg _))
        have heq : (dx / Real.sqrt (dx * dx + dy * dy)) ^ 2 +
            (dy / Real.sqrt (dx * dx + dy * dy)) ^ 2 = 1 := by
          field_simp
          nlinarith [hDD]
        rw [heq]

/-- Witness for `joystick_output_magnitude_le_one`: joystick at `(30, 40)`,
anchored at a tracked touch that started at `(0, 0)`. -/
def joystickWitnessState : InputHandlerState :=
  { touches := [{ id := 1, x := 30, y := 40, startX := 0, startY := 0, startTime := 0 }],
    virtualJoystick := { x := 30, y := 40, radius := 50, active := true, touchId := some 1 },
    canvasWidth := 320 }

theorem joystick_output_magnitude_le_one_witness :
    joystickWitnessState.virtualJoystick.radius = 50 ∧
    (getVirtualJoystick joystickWitnessState).active = true ∧
    (getVirtualJoystick joystickWitnessState).x ^ 2 +
      (getVirtualJoystick joystickWitnessState).y ^ 2 ≤ 1 := by
  have hact : (getVirtualJoystick joystickWitnessState).active = true := by
    simp only [getVirtualJoystick, joystickWitnessState, jsIdFalsy, List.find?]
    norm_num
  exact ⟨rfl, hact, joystick_output_magnitude_le_one joystickWitnessState rfl hact⟩

/-- C10: when the joystick is active but its bound touch identifier is `0`,
`getVirtualJoystick()` returns the inactive result `{x: 0, y: 0, active:
false}` even though the touch is still tracked: the JavaScript guard
`!this.virtualJoystick.touchId` treats touch id `0` like `null`. -/
theorem joystick_touchId_zero_inactive (s : InputHandlerState)
    (hact : s.virtualJoystick.active = true)
    (hid : s.virtualJoystick.touchId = some 0)
    (htracked : ∃ t ∈ s.touches, t.id = 0) :
    getVirtualJoystick s = { x := 0, y := 0, active := false } := by
  simp only [getVirtualJoystick, hact, hid, jsIdFalsy]
  norm_num

/-- Witness for `joystick_touchId_zero_inactive`: touch id `0` tracked at
`(10, 10)`, joystick active and bound to it. -/
def touchZeroState : InputHandlerState :=
  { touches := [{ id := 0, x := 10, y := 10, startX := 5, startY := 5, startTime := 0 }],
    virtualJoystick := { x := 10, y := 10, radius := 50, active := true, touchId := some 0 },
    canvasWidth := 320 }

theorem joystick_touchId_zero_inactive_witness :
    touchZeroState.virtualJoystick.active = true ∧
    touchZeroState.virtualJoystick.touchId = some 0 ∧
    (∃ t ∈ touchZeroState.touches, t.id = 0) ∧
    getVirtualJoystick touchZeroState = { x := 0, y := 0, active := false } :=
  ⟨rfl, rfl, ⟨{ id := 0, x := 10, y := 10, startX := 5, startY := 5, startTime := 0 },
      by simp [touchZeroState], rfl⟩,
    joystick_touchId_zero_inactive touchZeroState rfl rfl
      ⟨{ id := 0, x := 10, y := 10, startX := 5, startY := 5, startTime := 0 },
        by simp [touchZeroState], rfl⟩⟩

/-- C6 (counterexample): a touch whose displacement is `(40, 40)` — a tie
`|deltaX| = |deltaY|` with distance `√3200 > 30` — is classified as a swipe
with direction `"down"`, i.e. the vertical axis, not the horizontal one the
claim asserts for ties. -/
def tieTouch : TouchInfo :=
  { id := 1, x := 40, y := 40, startX := 0, startY := 0, startTime := 0 }

theorem swipe_tie_vertical_counterexample :
    |tieTouch.x - tieTouch.startX| = |tieTouch.y - tieTouch.startY| ∧
    swipeThreshold < Real.sqrt
      ((tieTouch.x - tieTouch.startX) * (tieTouch.x - tieTouch.startX) +
        (tieTouch.y - tieTouch.startY) * (tieTouch.y - tieTouch.startY)) ∧
    completeGestureRecognition 400 tieTouch = some (Gesture.swipe "down" 40 40) ∧
    ("down" : String) ≠ "right" ∧ ("down" : String) ≠ "left" := by
  have hdist : swipeThreshold < Real.sqrt
      ((tieTouch.x - tieTouch.startX) * (tieTouch.x - tieTouch.startX) +
        (tieTouch.y - tieTouch.startY) * (tieTouch.y - tieTouch.startY)) := by
    simp only [tieTouch]
    norm_num [swipeThreshold]
    exact (Real.lt_sqrt (by norm_num)).mpr (by norm_num)
  refine ⟨by simp [tieTouch], hdist, ?_, by decide, by decide⟩
  have h3200 : (30 : ℝ) < Real.sqrt ((40 - 0) * (40 - 0) + (40 - 0) * (40 - 0)) := by
    simpa [tieTouch, swipeThreshold] using hdist
  simp only [completeGestureRecognition, tieTouch, getSwipeDirection]
  rw [if_neg, if_pos]
  · rw [if_neg (by norm_num : ¬ |(40 : ℝ) - 0| < |(40 : ℝ) - 0|),
      if_pos (by norm_num : (0 : ℝ) < 40 - 0)]
    norm_num
  · simpa [swipeThreshold] using h3200
  · rintro ⟨-, habs⟩
    have : (10 : ℝ) < Real.sqrt ((40 - 0) * (40 - 0) + (40 - 0) * (40 - 0)) :=
      lt_trans (by norm_num) h3200
    linarith

/-- C6 (amended): at touch-end, every touch whose displacement exceeds the
swipe threshold is emitted as a swipe whose direction is the axis with the
strictly greater absolute displacement component (`"right"`/`"left"` by the
sign of `deltaX`, `"down"`/`"up"` by the sign of `deltaY`); when
`|deltaX| = |deltaY|` the tie is resolved in favor of the *vertical* axis. -/
theorem swipe_direction_classification (now : ℝ) (t : TouchInfo)
    (h : swipeThreshold < Real.sqrt
      ((t.x - t.startX) * (t.x - t.startX) + (t.y - t.startY) * (t.y - t.startY))) :
    completeGestureRecognition now t =
      some (Gesture.swipe (getSwipeDirection (t.x - t.startX) (t.y - t.startY))
        (t.x - t.startX) (t.y - t.startY)) ∧
    (|t.y - t.startY| < |t.x - t.startX| →
      getSwipeDirection (t.x - t.startX) (t.y - t.startY) =
        if 0 < t.x - t.startX then "right" else "left") ∧
    (|t.x - t.startX| ≤ |t.y - t.startY| →
      getSwipeDirection (t.x - t.startX) (t.y - t.startY) =
        if 0 < t.y - t.startY then "down" else "up") := by
  refine ⟨?_, ?_, ?_⟩
  · simp only [completeGestureRecognition]
    rw [if_neg, if_pos h]
    rintro ⟨-, hsmall⟩
    have h10 : (10 : ℝ) < Real.sqrt
        ((t.x - t.startX) * (t.x - t.startX) + (t.y - t.startY) * (t.y - t.startY)) := by
      have h30 : (30 : ℝ) < Real.sqrt
          ((t.x - t.startX) * (t.x - t.startX) + (t.y - t.startY) * (t.y - t.startY)) := by
        simpa [swipeThreshold] using h
      linarith
    linarith
  · intro habs
    simp only [getSwipeDirection]
    rw [if_pos habs]
  · intro habs
    simp only [getSwipeDirection]
    rw [if_neg (not_lt.mpr habs)]

/-- Witness for `swipe_direction_classification`: displacement `(40, 0)`. -/
def horizTouch : TouchInfo :=
  { id := 2, x := 40, y := 0, startX := 0, startY := 0, startTime := 0 }

theorem swipe_direction_classification_witness :
    swipeThreshold < Real.sqrt
      ((horizTouch.x - horizTouch.startX) * (horizTouch.x - horizTouch.startX) +
        (horizTouch.y - horizTouch.startY) * (horizTouch.y - horizTouch.startY)) ∧
    completeGestureRecognition 100 horizTouch =
      some (Gesture.swipe
        (getSwipeDirection (horizTouch.x - horizTouch.startX)
          (horizTouch.y - horizTouch.startY))
        (horizTouch.x - horizTouch.startX) (horizTouch.y - horizTouch.startY)) := by
  have h : swipeThreshold < Real.sqrt
      ((horizTouch.x - horizTouch.startX) * (horizTouch.x - horizTouch.startX) +
        (horizTouch.y - horizTouch.startY) * (horizTouch.y - horizTouch.startY)) := by
    simp only [horizTouch]
    rw [show ((40 - 0) * (40 - 0) + (0 - 0) * (0 - 0) : ℝ) = 40 ^ 2 by norm_num,
      Real.sqrt_sq (by norm_num : (0 : ℝ) ≤ 40)]
    norm_num [swipeThreshold]
  exact ⟨h, (swipe_direction_classification 100 horizTouch h).1⟩

/-! ## Claims C5 and C8: SceneManager -/

/-- A `SceneManager` mid-transition from scene `1` ("menu") to scene `2`
("game"). -/
def activeTransitionSM : SceneManagerState :=
  { scenes := [("menu", 1), ("game", 2)], initializedScenes := ["menu", "game"],
    currentScene := some 1, previousScene := Option.none,
    transitionFromScene := some 1, transitionToScene := some 2,
    transitionActive := true, transitionProgress := 1/2,
    transitionType := TransitionType.fade, transitionDuration := 500,
    destroyedScenes := [] }

/-- An idle `SceneManager` (no transition running), current scene `1`. -/
def idleSM : SceneManagerState :=
  { scenes := [("menu", 1), ("game", 2)], initializedScenes := ["menu", "game"],
    currentScene := some 1, previousScene := Option.none,
    transitionFromScene := Option.none, transitionToScene := Option.none,
    transitionActive := false, transitionProgress := 0,
    transitionType := TransitionType.noTransition, transitionDuration := 500,
    destroyedScenes := [] }

/-- C5 (counterexample): while a transition is active, `switchTo` with an
*unregistered* scene name still throws — the not-found check precedes the
transition-in-progress check — so it is not true that "any call to switchTo
returns as a no-op without throwing" during a transition. -/
theorem switchTo_throws_during_transition_counterexample :
    activeTransitionSM.transitionActive = true ∧
    (switchTo activeTransitionSM "missing" TransitionType.noTransition).1 =
      SwitchOutcome.threw ("Scene not found: " ++ "missing") := by
  constructor
  · rfl
  · rfl

/-- C5 (amended): while a transition is in progress, a `switchTo` call whose
target name is registered returns as a no-op without throwing, leaving the
entire `SceneManager` state unchanged; starting a transition never changes
`currentScene`; each transition frame with progress `< 1` leaves
`currentScene` at the pre-transition scene; and the frame on which progress
reaches `1` makes the incoming scene current. -/
theorem switchTo_noop_during_transition :
    (∀ (s : SceneManagerState) (name : String) (t : TransitionType)
        (scene : SceneId), s.transitionActive = true →
        lookupScene s.scenes name = some scene →
        switchTo s name t = (SwitchOutcome.noop, s)) ∧
    (∀ (s s' : SceneManagerState) (name : String) (t : TransitionType),
        switchTo s name t = (SwitchOutcome.started, s') →
        s'.currentScene = s.currentScene) ∧
    (∀ (s : SceneManagerState) (fromScene : Option SceneId) (toScene : SceneId)
        (elapsed : ℚ), min (elapsed / s.transitionDuration) 1 < 1 →
        (transitionTick s fromScene toScene elapsed).currentScene = s.currentScene) ∧
    (∀ (s : SceneManagerState) (fromScene : Option SceneId) (toScene : SceneId)
        (elapsed : ℚ), 1 ≤ min (elapsed / s.transitionDuration) 1 →
        (transitionTick s fromScene toScene elapsed).currentScene = some toScene) := by
  refine ⟨?_, ?_, ?_, ?_⟩
  · intro s name t scene hact hlook
    rw [switchTo, hlook]
    simp only [hact, if_true]
  · intro s s' name t h
    rw [switchTo] at h
    rcases hlook : lookupScene s.scenes name with _ | scene
    · rw [hlook] at h
      exact absurd (congrArg Prod.fst h) (by simp)
    · rw [hlook] at h
      dsimp only at h
      by_cases hact : s.transitionActive = true
      · rw [if_pos hact] at h
        exact absurd (congrArg Prod.fst h) (by simp)
      · rw [if_neg hact] at h
        by_cases hcur : (s.currentScene == some scene) = true
        · rw [if_pos hcur] at h
          exact absurd (congrArg Prod.fst h) (by simp)
        · rw [if_neg hcur] at h
          have := congrArg Prod.snd h
          simp only at this
          rw [← this]
          by_cases hinit : name ∈ s.initializedScenes
          · rw [if_pos hinit]
          · rw [if_neg hinit]
  · intro s fromScene toScene elapsed hlt
    rw [transitionTick]
    rw [if_neg (not_le.mpr hlt)]
  · intro s fromScene toScene elapsed hge
    rw [transitionTick, if_pos hge]
    rcases fromScene with _ | f
    · rfl
    · rfl

/-- Witness for `switchTo_noop_during_transition`: each conjunct applied at a
concrete instance (`activeTransitionSM` / `idleSM`, scene `2`, duration 500,
elapsed `100` resp. `600`). -/
theorem switchTo_noop_during_transition_witness :
    switchTo activeTransitionSM "game" TransitionType.fade =
      (SwitchOutcome.noop, activeTransitionSM) ∧
    (switchTo idleSM "game" TransitionType.fade).2.currentScene =
      idleSM.currentScene ∧
    (transitionTick activeTransitionSM (some 1) 2 100).currentScene =
      activeTransitionSM.currentScene ∧
    (transitionTick activeTransitionSM (some 1) 2 600).currentScene = some 2 :=
  ⟨switchTo_noop_during_transition.1 activeTransitionSM "game" TransitionType.fade 2
      rfl rfl,
    switchTo_noop_during_transition.2.1 idleSM
      (switchTo idleSM "game" TransitionType.fade).2 "game" TransitionType.fade rfl,
    switchTo_noop_during_transition.2.2.1 activeTransitionSM (some 1) 2 100
      (by norm_num [activeTransitionSM]),
    switchTo_noop_during_transition.2.2.2 activeTransitionSM (some 1) 2 600
      (by norm_num [activeTransitionSM])⟩

/-- C8: `removeScene(name)` on the currently active scene throws
`"Cannot remove active scene: <name>"` and leaves the state untouched — in
particular the scene is not destroyed and the `scenes` map is unchanged. -/
theorem removeScene_active_throws (s : SceneManagerState) (name : String)
    (scene : SceneId) (hlook : lookupScene s.scenes name = some scene)
    (hcur : s.currentScene = some scene) :
    removeScene s name = (some ("Cannot remove active scene: " ++ name), s) ∧
    (removeScene s name).2.scenes = s.scenes ∧
    (removeScene s name).2.destroyedScenes = s.destroyedScenes := by
  have h : removeScene s name = (some ("Cannot remove active scene: " ++ name), s) := by
    rw [removeScene, hlook]
    dsimp only
    rw [if_pos]
    rw [hcur]
    exact beq_self_eq_true _
  exact ⟨h, by rw [h], by rw [h]⟩

/-- Witness for `removeScene_active_throws` on `idleSM` (current scene `1`,
registered as `"menu"`). -/
theorem removeScene_active_throws_witness :
    lookupScene idleSM.scenes "menu" = some 1 ∧
    idleSM.currentScene = some 1 ∧
    removeScene idleSM "menu" =
      (some ("Cannot remove active scene: " ++ "menu"), idleSM) :=
  ⟨rfl, rfl, (removeScene_active_throws idleSM "menu" 1 rfl rfl).1⟩

/-! ## Claims C4 and C7: AssetManager -/

theorem mapGet_mapSet_self (m : List (String × Asset)) (k : String) (v : Asset) :
    mapGet (mapSet m k v) k = some v := by
  induction m with
  | nil => simp [mapGet, mapSet]
  | cons p rest ih =>
      rw [mapSet]
      by_cases hp : p.1 = k
      · rw [if_pos hp, mapGet, if_pos rfl]
      · rw [if_neg hp, mapGet, if_neg hp]
        exact ih

theorem mapGet_mapSet_ne (m : List (String × Asset)) (k k' : String) (v : Asset)
    (h : k' ≠ k) : mapGet (mapSet m k v) k' = mapGet m k' := by
  induction m with
  | nil =>
      simp [mapSet, mapGet, Ne.symm h]
  | cons p rest ih =>
      rw [mapSet]
      by_cases hp : p.1 = k
      · rw [if_pos hp, mapGet, mapGet,
          if_neg (fun hh : k = k' => h hh.symm),
          if_neg (fun hh : p.1 = k' => h (hp ▸ hh).symm)]
      · rw [if_neg hp, mapGet, mapGet, ih]

theorem mapGet_mapUpdate_self (m : List (String × Asset)) (k : String)
    (f : Asset → Asset) : mapGet (mapUpdate m k f) k = (mapGet m k).map f := by
  induction m with
  | nil => rfl
  | cons p rest ih =>
      rw [mapUpdate]
      by_cases hp : p.1 = k
      · rw [if_pos hp, mapGet, if_pos hp, mapGet, if_pos hp]
        rfl
      · rw [if_neg hp, mapGet, if_neg hp, mapGet, if_neg hp]
        exact ih

theorem mapGet_mapUpdate_ne (m : List (String × Asset)) (k k' : String)
    (f : Asset → Asset) (h : k' ≠ k) :
    mapGet (mapUpdate m k f) k' = mapGet m k' := by
  induction m with
  | nil => rfl
  | cons p rest ih =>
      rw [mapUpdate]
      by_cases hp : p.1 = k
      · rw [if_pos hp, mapGet, mapGet]
        dsimp only
        have hne : ¬(p.1 = k') := by
          rw [hp]
          exact fun hh => h hh.symm
        rw [if_neg hne, if_neg hne]
      · rw [if_neg hp, mapGet, mapGet, ih]

/-- The `AssetRequest` of the C4 scenario. -/
def playerRequest : AssetRequest :=
  { id := "player", type := AssetType.image, path := "assets/sprites/player.png" }

/-- C4 fails on the code (failing input): two `loadAsset("player")` calls
where the second runs its synchronous prefix before the first's load
settles.  The first call stores the in-flight promise under `"player"`; the
second call nevertheless does not return early (`asset.loaded` is still
`false` and `loadPromises` is never consulted) and invokes `loadAssetData`
again: `loadStarts` records two underlying loads. -/
theorem loadAsset_duplicates_inflight_load :
    (loadAssetBegin freshAssetManager playerRequest).1.loadStarts = ["player"] ∧
    (loadAssetBegin freshAssetManager playerRequest).1.loadPromises = ["player"] ∧
    (loadAssetBegin (loadAssetBegin freshAssetManager playerRequest).1
        playerRequest).2 = false ∧
    (loadAssetBegin (loadAssetBegin freshAssetManager playerRequest).1
        playerRequest).1.loadStarts = ["player", "player"] :=
  ⟨rfl, rfl, rfl, rfl⟩

/-- Effect of a whole `loadAsset` call for an id that is not yet in `assets`:
counters move by exactly one according to the outcome, the call resolves with
an asset exactly when the load succeeded, and entries of other ids are
untouched. -/
theorem loadAsset_fresh_effects (s : AssetManagerState) (r : AssetRequest)
    (o : Option ℕ) (h : mapGet s.assets r.id = Option.none) :
    (loadAsset s r o).1.totalAssets = s.totalAssets ∧
    (loadAsset s r o).1.loadedAssets =
      s.loadedAssets + (if o.isSome then 1 else 0) ∧
    (loadAsset s r o).1.failedAssets =
      s.failedAssets + (if o.isSome then 0 else 1) ∧
    (loadAsset s r o).2.isSome = o.isSome ∧
    (∀ k, k ≠ r.id → mapGet (loadAsset s r o).1.assets k = mapGet s.assets k) := by
  have hbegin : loadAssetBegin s r =
      ({ s with
          assets := mapSet s.assets r.id
            { id := r.id, type := r.type, path := r.path, loaded := false,
              data := Option.none, error := Option.none },
          loadStarts := s.loadStarts ++ [r.id],
          loadPromises :=
            if r.id ∈ s.loadPromises then s.loadPromises
            else s.loadPromises ++ [r.id] }, false) := by
    rw [loadAssetBegin, h]
    rfl
  rw [loadAsset, hbegin]
  simp only [Bool.false_eq_true, if_false]
  cases o with
  | some d =>
      rw [loadAssetComplete]
      dsimp only
      refine ⟨rfl, rfl, rfl, ?_, ?_⟩
      · rw [mapGet_mapUpdate_self, mapGet_mapSet_self]
        rfl
      · intro k hk
        rw [mapGet_mapUpdate_ne _ _ _ _ hk, mapGet_mapSet_ne _ _ _ _ hk]
  | none =>
      rw [loadAssetComplete]
      dsimp only
      refine ⟨rfl, rfl, rfl, rfl, ?_⟩
      intro k hk
      rw [mapGet_mapUpdate_ne _ _ _ _ hk, mapGet_mapSet_ne _ _ _ _ hk]

theorem reduceOption_three_length (o1 o2 o3 : Option ℕ) (a b c : Option Asset)
    (ha : a.isSome = o1.isSome) (hb : b.isSome = o2.isSome)
    (hc : c.isSome = o3.isSome) :
    ([a, b, c].reduceOption).length =
      (if o1.isSome then 1 else 0) + (if o2.isSome then 1 else 0) +
        (if o3.isSome then 1 else 0) := by
  cases a <;> cases b <;> cases c <;> cases o1 <;> cases o2 <;> cases o3 <;>
    simp_all [List.reduceOption]

/-- Counter and result-count characterisation of `loadAssets` on three
requests with pairwise-distinct fresh ids. -/
theorem loadAssets_three (s : AssetManagerState) (r1 r2 r3 : AssetRequest)
    (o1 o2 o3 : Option ℕ)
    (h1 : mapGet s.assets r1.id = Option.none)
    (h2 : mapGet s.assets r2.id = Option.none)
    (h3 : mapGet s.assets r3.id = Option.none)
    (h21 : r2.id ≠ r1.id) (h31 : r3.id ≠ r1.id) (h32 : r3.id ≠ r2.id) :
    (loadAssets s [(r1, o1), (r2, o2), (r3, o3)]).1.totalAssets = 3 ∧
    (loadAssets s [(r1, o1), (r2, o2), (r3, o3)]).1.loadedAssets =
      (if o1.isSome then 1 else 0) + (if o2.isSome then 1 else 0) +
        (if o3.isSome then 1 else 0) ∧
    (loadAssets s [(r1, o1), (r2, o2), (r3, o3)]).1.failedAssets =
      (if o1.isSome then 0 else 1) + (if o2.isSome then 0 else 1) +
        (if o3.isSome then 0 else 1) ∧
    (loadAssets s [(r1, o1), (r2, o2), (r3, o3)]).2.length =
      (if o1.isSome then 1 else 0) + (if o2.isSome then 1 else 0) +
        (if o3.isSome then 1 else 0) := by
  have hunfold : loadAssets s [(r1, o1), (r2, o2), (r3, o3)] =
      ((loadAsset (loadAsset (loadAsset
          { s with totalAssets := 3, loadedAssets := 0, failedAssets := 0 }
          r1 o1).1 r2 o2).1 r3 o3).1,
        [(loadAsset { s with totalAssets := 3, loadedAssets := 0, failedAssets := 0 }
            r1 o1).2,
          (loadAsset (loadAsset
            { s with totalAssets := 3, loadedAssets := 0, failedAssets := 0 }
            r1 o1).1 r2 o2).2,
          (loadAsset (loadAsset (loadAsset
            { s with totalAssets := 3, loadedAssets := 0, failedAssets := 0 }
            r1 o1).1 r2 o2).1 r3 o3).2].reduceOption) := by
    rw [loadAssets]
    simp only [List.foldl, List.length_cons, List.length_nil, List.nil_append,
      List.singleton_append, List.cons_append, List.append_nil]
  set s0 : AssetManagerState :=
    { s with totalAssets := 3, loadedAssets := 0, failedAssets := 0 } with hs0
  obtain ⟨et1, el1, ef1, es1, ek1⟩ :=
    loadAsset_fresh_effects s0 r1 o1 h1
  obtain ⟨et2, el2, ef2, es2, ek2⟩ :=
    loadAsset_fresh_effects (loadAsset s0 r1 o1).1 r2 o2
      (by rw [ek1 r2.id h21]; exact h2)
  obtain ⟨et3, el3, ef3, es3, ek3⟩ :=
    loadAsset_fresh_effects (loadAsset (loadAsset s0 r1 o1).1 r2 o2).1 r3 o3
      (by rw [ek2 r3.id h32, ek1 r3.id h31]; exact h3)
  rw [hunfold]
  refine ⟨?_, ?_, ?_, ?_⟩
  · rw [et3, et2, et1]
  · rw [el3, el2, el1]
    show 0 + _ + _ + _ = _
    omega
  · rw [ef3, ef2, ef1]
    show 0 + _ + _ + _ = _
    omega
  · exact reduceOption_three_length o1 o2 o3 _ _ _ es1 es2 es3

/-- C7: for every `loadAssets` call with three fresh, pairwise-distinct
requests of which exactly one fails, the call resolves (the model is a total
function: each per-request rejection is caught by the `.catch(() => null)`
wrapper) with exactly the two successfully loaded assets, and afterwards
`getProgress()` reports `total = 3`, `loaded = 2`, `failed = 1`, with
`percentage ≤ 100`.  The three conjuncts cover the failure occurring at each
of the three positions. -/
theorem loadAssets_single_failure (s : AssetManagerState)
    (r1 r2 r3 : AssetRequest) (d d' : ℕ)
    (h1 : mapGet s.assets r1.id = Option.none)
    (h2 : mapGet s.assets r2.id = Option.none)
    (h3 : mapGet s.assets r3.id = Option.none)
    (h21 : r2.id ≠ r1.id) (h31 : r3.id ≠ r1.id) (h32 : r3.id ≠ r2.id) :
    ((loadAssets s [(r1, some d), (r2, some d'), (r3, Option.none)]).2.length = 2 ∧
      getProgress (loadAssets s [(r1, some d), (r2, some d'), (r3, Option.none)]).1 =
        { total := 3, loaded := 2, failed := 1, percentage := 100 } ∧
      (getProgress (loadAssets s
        [(r1, some d), (r2, some d'), (r3, Option.none)]).1).percentage ≤ 100) ∧
    ((loadAssets s [(r1, some d), (r2, Option.none), (r3, some d')]).2.length = 2 ∧
      getProgress (loadAssets s [(r1, some d), (r2, Option.none), (r3, some d')]).1 =
        { total := 3, loaded := 2, failed := 1, percentage := 100 } ∧
      (getProgress (loadAssets s
        [(r1, some d), (r2, Option.none), (r3, some d')]).1).percentage ≤ 100) ∧
    ((loadAssets s [(r1, Option.none), (r2, some d), (r3, some d')]).2.length = 2 ∧
      getProgress (loadAssets s [(r1, Option.none), (r2, some d), (r3, some d')]).1 =
        { total := 3, loaded := 2, failed := 1, percentage := 100 } ∧
      (getProgress (loadAssets s
        [(r1, Option.none), (r2, some d), (r3, some d')]).1).percentage ≤ 100) := by
  have aux : ∀ o1 o2 o3 : Option ℕ,
      (if o1.isSome then 1 else 0) + (if o2.isSome then 1 else 0) +
        (if o3.isSome then 1 else 0) = 2 →
      (if o1.isSome then 0 else 1) + (if o2.isSome then 0 else 1) +
        (if o3.isSome then 0 else 1) = 1 →
      (loadAssets s [(r1, o1), (r2, o2), (r3, o3)]).2.length = 2 ∧
      getProgress (loadAssets s [(r1, o1), (r2, o2), (r3, o3)]).1 =
        { total := 3, loaded := 2, failed := 1, percentage := 100 } ∧
      (getProgress (loadAssets s [(r1, o1), (r2, o2), (r3, o3)]).1).percentage
        ≤ 100 := by
    intro o1 o2 o3 hsome hnone
    obtain ⟨ht, hl, hf, hlen⟩ :=
      loadAssets_three s r1 r2 r3 o1 o2 o3 h1 h2 h3 h21 h31 h32
    rw [hsome] at hl hlen
    rw [hnone] at hf
    refine ⟨hlen, ?_, ?_⟩
    · rw [getProgress]
      simp only [ht, hl, hf, LoadProgress.mk.injEq]
      norm_num
    · rw [getProgress]
      dsimp only
      exact min_le_right _ _
  exact ⟨aux (some d) (some d') Option.none (by norm_num) (by norm_num),
    aux (some d) Option.none (some d') (by norm_num) (by norm_num),
    aux Option.none (some d) (some d') (by norm_num) (by norm_num)⟩

/-- Witness for `loadAssets_single_failure`: a fresh manager and three
requests `"a"`, `"b"`, `"c"`. -/
def reqA : AssetRequest := { id := "a", type := AssetType.json, path := "a.json" }

def reqB : AssetRequest := { id := "b", type := AssetType.json, path := "b.json" }

def reqC : AssetRequest := { id := "c", type := AssetType.json, path := "c.json" }

theorem loadAssets_single_failure_witness :
    mapGet freshAssetManager.assets reqA.id = Option.none ∧
    reqB.id ≠ reqA.id ∧
    ((loadAssets freshAssetManager
        [(reqA, some 7), (reqB, some 8), (reqC, Option.none)]).2.length = 2 ∧
      getProgress (loadAssets freshAssetManager
          [(reqA, some 7), (reqB, some 8), (reqC, Option.none)]).1 =
        { total := 3, loaded := 2, failed := 1, percentage := 100 } ∧
      (getProgress (loadAssets freshAssetManager
          [(reqA, some 7), (reqB, some 8), (reqC, Option.none)]).1).percentage
        ≤ 100) :=
  ⟨rfl, by decide,
    (loadAssets_single_failure freshAssetManager reqA reqB reqC 7 8
      rfl rfl rfl (by decide) (by decide) (by decide)).1⟩

end VersusBank
